import Mathlib

/-!
Shallow embedding of the rpi-energy-meter repository (src/main.py, src/ping.py).

Modelling conventions:
* Python floats are modelled as exact rationals (`ℚ`).  Every numeric claim
  under study is about exact dyadic values (decoded IEEE-754 register values,
  ratios of them) where binary64 evaluation in Python agrees with exact
  rational arithmetic; Python raises `ZeroDivisionError` on float division by
  zero, which is modelled explicitly where the source can divide by zero.
* Python exceptions are modelled by the inductive type `PyExc`; fallible code
  returns `Except PyExc`.  File state (the CSV backlog) is passed explicitly.
* Machine registers are 16-bit unsigned words; `minimalmodbus.read_registers`
  returns values in `0 .. 65535`, so theorems about register decoding carry
  the hypothesis `r < 2 ^ 16` where the Python format string would otherwise
  produce more than 16 characters.
* The textual CSV serialisation of a cell is abstracted: a stored cell holds
  the written value (`Entry`).  `csv.DictWriter` and `csv.DictReader`
  preserve the number and order of cells, which is all the claims use.
-/

namespace EnergyMeter

/-- The Python exception classes that can arise in `get_and_send_readings`
(main.py).  `attributeError` and `keyError` carry the offending name. -/
inductive PyExc where
  | illegalRequestError
  | serialException
  | connectionError
  | timeout
  | attributeError (attr : String)
  | keyError (key : String)
  | zeroDivisionError
  | indexError
  | typeError
  deriving DecidableEq, Repr

/-- main.py line 54: the Modbus id of the meter (an `int` in the source,
embedded into `ℚ` because it is later stored next to decoded readings). -/
def METER_ID : ℚ := 101

/-- main.py lines 56-58: the fixed ordered register-address list
(32 entries, the last two both 223). -/
def REGISTER_LIST : List ℕ :=
  [99, 101, 103, 113, 115, 117, 121, 123, 125, 127, 129, 131,
   133, 135, 137, 141, 143, 145, 149, 151, 153, 157, 159, 161,
   177, 179, 181, 183, 185, 187, 223, 223]

/-- main.py lines 60-70: the fixed field-name schema (36 entries). -/
def PARAMETER_NAME_LIST : List String :=
  ["timestamp", "r_vtg", "y_vtg", "b_vtg", "r_curr",
   "y_curr", "b_curr", "r_active_curr", "y_active_curr",
   "b_active_curr", "r_reactive_curr", "y_reactive_curr",
   "b_reactive_curr", "r_pf", "y_pf", "b_pf",
   "r_active_pwr", "y_active_pwr", "b_active_pwr",
   "r_react_pwr", "y_react_pwr", "b_react_pwr",
   "r_apparent_pwr", "y_apparent_pwr", "b_apparent_pwr",
   "r_vtg_thd", "y_vtg_thd", "b_vtg_thd", "r_curr_thd",
   "y_curr_thd", "b_curr_thd", "abs_active_energy",
   "total_energy_imp", "phase_imbalance",
   "meter_id", "ip_address"]

/-- main.py lines 130-131: the format string `0:016b` applied to one
register word, as the 16 binary digits of `n`, most significant first.
Faithful for words below `2 ^ 16`, the range `read_registers` returns
(the Python format string would not truncate a larger value, so theorems
stay under that bound). -/
def format016b (n : ℕ) : List ℕ :=
  [n / 2 ^ 15 % 2, n / 2 ^ 14 % 2, n / 2 ^ 13 % 2, n / 2 ^ 12 % 2,
   n / 2 ^ 11 % 2, n / 2 ^ 10 % 2, n / 2 ^ 9 % 2, n / 2 ^ 8 % 2,
   n / 2 ^ 7 % 2, n / 2 ^ 6 % 2, n / 2 ^ 5 % 2, n / 2 ^ 4 % 2,
   n / 2 ^ 3 % 2, n / 2 ^ 2 % 2, n / 2 ^ 1 % 2, n / 2 ^ 0 % 2]

/-- Big-endian bit string of `n` of width `w`, defined by peeling the most
significant bit; proof-friendly companion of `format016b`. -/
def toBitsW : ℕ → ℕ → List ℕ
  | 0, _ => []
  | w + 1, n => n / 2 ^ w % 2 :: toBitsW w n

/-- Positional binary value of a bit string, accumulator form
(the Python builtin `int(s, 2)`). -/
def ofBitsAux (acc : ℕ) : List ℕ → ℕ
  | [] => acc
  | b :: rest => ofBitsAux (2 * acc + b) rest

/-- Positional binary value of a big-endian bit string. -/
def ofBits (l : List ℕ) : ℕ := ofBitsAux 0 l

/-- main.py lines 102-106: the loop of `convert_mantissa`.  `power_count`
starts at `-1` and decreases; each bit contributes `bit * 2 ^ power_count`
to the accumulator. -/
def mantissaLoopAux (acc : ℚ) : List ℕ → ℤ → ℚ
  | [], _ => acc
  | b :: rest, p => mantissaLoopAux (acc + (b : ℚ) * (2 : ℚ) ^ p) rest (p - 1)

/-- main.py lines 82-107, `convert_mantissa`: fractional binary digits with
an implicit leading 1 (the final `return mantissa_int + 1`). -/
def convert_mantissa (mantissa_str : List ℕ) : ℚ :=
  mantissaLoopAux 0 mantissa_str (-1) + 1

/-- main.py line 132: `binary_string = parameter_value[1] + parameter_value[0]`,
the 32-bit pattern built from a two-word register response (the SECOND list
element printed first, then the first). -/
def binary_string_of (register_value : List ℕ) : List ℕ :=
  format016b (register_value.getD 1 0) ++ format016b (register_value.getD 0 0)

/-- main.py lines 109-139, `convert_to_decimal`: `sign_bit` is character 0 of
the 32-character string `binary_string`, `exponent` is characters 1 to 8 read
in base 2 minus bias 127, `mantissa_binary` is characters 9 to 31 decoded by
`convert_mantissa`, and the result is
`(-1) ^ sign_bit * mantissa_decimal * 2 ^ exponent`. -/
def convert_to_decimal (register_value : List ℕ) : ℚ :=
  (-1 : ℚ) ^ ((binary_string_of register_value).getD 0 0)
    * convert_mantissa ((binary_string_of register_value).drop 9)
    * (2 : ℚ) ^ ((ofBits (((binary_string_of register_value).drop 1).take 8) : ℤ) - 127)

/-- Direct arithmetic reading of a 32-bit word `w` as an IEEE-754 single with
the implicit-leading-1 formula applied unconditionally: sign is bit 31,
exponent bits 23 to 30 with bias 127, mantissa bits 0 to 22. -/
def decodeWord (w : ℕ) : ℚ :=
  (-1 : ℚ) ^ (w / 2 ^ 31 % 2) * ((w % 2 ^ 23 : ℕ) * (2 : ℚ) ^ (-23 : ℤ) + 1)
    * (2 : ℚ) ^ (((w / 2 ^ 23 % 2 ^ 8 : ℕ) : ℤ) - 127)

/-- Modelled from the spec: "the decoder concatenates low-register-bits
followed by high-register-bits to form the 32-bit pattern", with the
low-order register the first-arriving one.  This is the pattern the claim
describes, to be compared with `binary_string_of` from the source. -/
def spec_order_pattern (register_value : List ℕ) : List ℕ :=
  format016b (register_value.getD 0 0) ++ format016b (register_value.getD 1 0)

/-- The decode pipeline of `convert_to_decimal` run on the claimed
first-arriving-first pattern `spec_order_pattern` instead of the pattern the
source builds. -/
def spec_order_decode (register_value : List ℕ) : ℚ :=
  (-1 : ℚ) ^ ((spec_order_pattern register_value).getD 0 0)
    * convert_mantissa ((spec_order_pattern register_value).drop 9)
    * (2 : ℚ) ^ ((ofBits (((spec_order_pattern register_value).drop 1).take 8) : ℤ) - 127)

/-- A Python value stored in a reading: the timestamp and ip address are
strings, everything else is numeric. -/
inductive Entry where
  | str (s : String)
  | num (q : ℚ)
  deriving DecidableEq, Repr

/-- A Python dict holding one reading, as an ordered association list
(Python dicts preserve insertion order). -/
abbrev ReadingDict := List (String × Entry)

/-- The backlog CSV file: a header row of field names followed by data rows.
Cells hold the written values; textual encoding is abstracted. -/
structure CSVFile where
  header : List String
  rows : List (List Entry)
  deriving DecidableEq, Repr

/-- main.py lines 168-187, `clear_csv`: truncate the file (mode `w+`), then
rewrite only the header row using `PARAMETER_NAME_LIST` as fieldnames.
Whatever the previous contents were, the result is a header and no rows. -/
def clear_csv (_file : CSVFile) : CSVFile :=
  { header := PARAMETER_NAME_LIST, rows := [] }

/-- main.py lines 405-408: the startup initialisation writes the header into
an empty file when none exists. -/
def init_file : CSVFile :=
  { header := PARAMETER_NAME_LIST, rows := [] }

/-- main.py lines 291-293 and 301-303: `csv.DictWriter(...,
fieldnames = PARAMETER_NAME_LIST).writerow(final_dict)` on a file opened in
append mode: one row is appended holding, for each field name in order, the
dict value under that name (`restval` default is the empty string). -/
def writerow (final_dict : ReadingDict) (file : CSVFile) : CSVFile :=
  { file with
    rows := file.rows
      ++ [PARAMETER_NAME_LIST.map (fun k => (final_dict.lookup k).getD (Entry.str ""))] }

/-- main.py lines 306-307: `csv.DictReader` over the file; the first line
supplies the fieldnames and each data row is returned as a dict pairing the
fieldnames with the cells of that row. -/
def read_all (file : CSVFile) : List ReadingDict :=
  file.rows.map (fun r => file.header.zip r)

/-- Reading `values_list[i]` in Python when a number is required: out of
range raises `IndexError`; a string cell would raise `TypeError` in the
arithmetic that follows. -/
def getNum (values_list : List Entry) (i : ℕ) : Except PyExc ℚ :=
  match values_list[i]? with
  | none => .error .indexError
  | some (.str _) => .error .typeError
  | some (.num q) => .ok q

/-- main.py lines 273-275: the inline phase-imbalance arithmetic applied to
the three values it is fed: `max` of the three divided by their mean. -/
def phase_imbalance_calc (r_current y_current b_current : ℚ) : ℚ :=
  max r_current (max y_current b_current) / ((r_current + y_current + b_current) / 3)

/-- main.py lines 269-275: `r_current = values_list[5]`,
`y_current = values_list[6]`, `b_current = values_list[7]`, then
`avg_current = (r+y+b)/3` and `phase_imbalance = max/avg`.  Python float
division raises `ZeroDivisionError` when `avg_current` is zero. -/
def phase_block (values_list : List Entry) : Except PyExc ℚ :=
  match getNum values_list 5 with
  | .error e => .error e
  | .ok r_current =>
    match getNum values_list 6 with
    | .error e => .error e
    | .ok y_current =>
      match getNum values_list 7 with
      | .error e => .error e
      | .ok b_current =>
        if (r_current + y_current + b_current) / 3 = 0 then
          .error .zeroDivisionError
        else
          .ok (phase_imbalance_calc r_current y_current b_current)

/-- main.py lines 260-265: the register-read loop.  `readReg i` is the
outcome of `instrument.read_registers(REGISTER_LIST[i], 2, 3)` for iteration
`i`; on success the two-word response is decoded by `convert_to_decimal` and
appended, and the first raised exception aborts the loop. -/
def read_loop (readReg : ℕ → Except PyExc (List ℕ)) : List ℕ → Except PyExc (List ℚ)
  | [] => .ok []
  | i :: rest =>
    match readReg i with
    | .error e => .error e
    | .ok register_value_binary =>
      match read_loop readReg rest with
      | .error e => .error e
      | .ok qs => .ok (convert_to_decimal register_value_binary :: qs)

/-- main.py lines 309-356: the keys read out of `row` inside the replay
loop, in source order.  Note the last key is `rpi_ip_address`, which is NOT
among the fieldnames of the schema (`ip_address` is). -/
def REPLAY_ROW_KEYS : List String :=
  ["timestamp", "r_vtg", "y_vtg", "b_vtg", "r_curr", "y_curr", "b_curr",
   "r_active_curr", "y_active_curr", "b_active_curr",
   "r_reactive_curr", "y_reactive_curr", "b_reactive_curr",
   "r_pf", "y_pf", "b_pf",
   "r_active_pwr", "y_active_pwr", "b_active_pwr",
   "r_react_pwr", "y_react_pwr", "b_react_pwr",
   "r_apparent_pwr", "y_apparent_pwr", "b_apparent_pwr",
   "r_vtg_thd", "y_vtg_thd", "b_vtg_thd",
   "r_curr_thd", "y_curr_thd", "b_curr_thd",
   "abs_active_energy", "total_energy_imp", "phase_imbalance",
   "meter_id", "rpi_ip_address"]

/-- Python dict subscription `row[key]`: raises `KeyError` when absent. -/
def lookup_row (row : ReadingDict) (key : String) : Except PyExc Entry :=
  match row.lookup key with
  | some v => .ok v
  | none => .error (.keyError key)

/-- The sequence of `final_dict[name] = row[name]` assignments of the replay
loop body: each subscription of `row` can raise `KeyError`.  The writes into
`final_dict` are not tracked because the loop body never completes (see
`replay_row`) and `final_dict` is not read afterwards. -/
def copy_fields (row : ReadingDict) : List String → Except PyExc Unit
  | [] => .ok ()
  | k :: rest =>
    match lookup_row row k with
    | .error e => .error e
    | .ok _ => copy_fields row rest

/-- main.py lines 308-358, one iteration of the replay loop: the field
copies (which subscript `row` by each key of `REPLAY_ROW_KEYS`), then
`requests.POST(...)`.  The `requests` module does not define an attribute
`POST` (the function is `requests.post`), so reaching the send line raises
`AttributeError` unconditionally. -/
def replay_row (row : ReadingDict) : Except PyExc Unit :=
  match copy_fields row REPLAY_ROW_KEYS with
  | .error e => .error e
  | .ok _ => .error (.attributeError "POST")

/-- main.py lines 306-358: the `for row in reader_object` loop. -/
def replay_loop : List ReadingDict → Except PyExc Unit
  | [] => .ok ()
  | row :: rest =>
    match replay_row row with
    | .error e => .error e
    | .ok _ => replay_loop rest

/-- main.py lines 294-362, the ONLINE branch: append the current reading to
the CSV file, read every row back and run the replay loop over them; only
when the loop finishes normally is `clear_csv` reached. -/
def online_branch (final_dict : ReadingDict) (file : CSVFile) :
    Except PyExc Unit × CSVFile :=
  let file1 := writerow final_dict file
  match replay_loop (read_all file1) with
  | .error e => (.error e, file1)
  | .ok _ => (.ok (), clear_csv file1)

/-- The per-cycle environment: wall-clock timestamp, the outcome of opening
the serial device (`minimalmodbus.Instrument`, line 253), the device
responses per read iteration, the `get_ip()` result (lines 141-166, which
never raises: any failure degrades to the loopback string), and the
`is_connected` probe result (lines 189-220). -/
structure CycleEnv where
  time_now : String
  serialOpen : Except PyExc Unit
  readReg : ℕ → Except PyExc (List ℕ)
  ip_address : String
  connected : Bool

/-- main.py lines 247-362 from the first register read onward: run the read
loop over `range(len(REGISTER_LIST))`, build `values_list` (timestamp first,
decoded values after), run the phase-imbalance block, extend with the
imbalance, `METER_ID` and the ip address, zip with the parameter names into
`final_dict`, and route it offline (append) or online (append then replay).
Returns the outcome paired with the resulting CSV file state. -/
def cycle_body (env : CycleEnv) (file : CSVFile) : Except PyExc Unit × CSVFile :=
  match read_loop env.readReg (List.range REGISTER_LIST.length) with
  | .error e => (.error e, file)
  | .ok decoded =>
    let values_list : List Entry := .str env.time_now :: decoded.map .num
    match phase_block values_list with
    | .error e => (.error e, file)
    | .ok phase_imbalance =>
      let values_full := values_list
        ++ [.num phase_imbalance, .num METER_ID, .str env.ip_address]
      let final_dict := PARAMETER_NAME_LIST.zip values_full
      if env.connected = false then
        (.ok (), writerow final_dict file)
      else
        online_branch final_dict file

/-- How one call of `get_and_send_readings` ends, seen from its caller. -/
inductive CycleOutcome where
  | finished
  | sleptAndContinued
  | exited
  | uncaught (e : PyExc)
  deriving DecidableEq, Repr

/-- main.py lines 365-382: the `except` clauses.  `IllegalRequestError` and
`Timeout` are logged and the call returns; `SerialException` sleeps 10
seconds and calls `sys.exit(1)`; `ConnectionError` sleeps 10 seconds and the
call returns.  Any other exception class is not caught and propagates to the
caller. -/
def except_handlers (r : Except PyExc Unit × CSVFile) : CycleOutcome × CSVFile :=
  match r with
  | (.ok _, f) => (.finished, f)
  | (.error .illegalRequestError, f) => (.finished, f)
  | (.error .serialException, f) => (.exited, f)
  | (.error .connectionError, f) => (.sleptAndContinued, f)
  | (.error .timeout, f) => (.finished, f)
  | (.error e, f) => (.uncaught e, f)

/-- main.py line 258: `instrument.seial.timeout = 1`.  The
`minimalmodbus.Instrument` object has an attribute `serial` but no attribute
`seial`, so this attribute read unconditionally raises `AttributeError`. -/
def seial_timeout_assignment : Except PyExc Unit :=
  .error (.attributeError "seial")

/-- main.py lines 250-362, the whole `try` body: open and configure the
instrument (lines 253-257, whose failure mode is the environment-supplied
`serialOpen`), execute line 258 (`seial_timeout_assignment`), then the rest
of the cycle (`cycle_body`). -/
def try_body (env : CycleEnv) (file : CSVFile) : Except PyExc Unit × CSVFile :=
  match env.serialOpen with
  | .error e => (.error e, file)
  | .ok _ =>
    match seial_timeout_assignment with
    | .error e => (.error e, file)
    | .ok _ => cycle_body env file

/-- main.py lines 222-382, `get_and_send_readings`: the `try` body wrapped in
the four `except` clauses. -/
def get_and_send_readings (env : CycleEnv) (file : CSVFile) : CycleOutcome × CSVFile :=
  except_handlers (try_body env file)

/-- The cycle from the first register read onward (main.py lines 260-362)
wrapped in the same `except` clauses (lines 365-382).  This is the code the
register-read, imbalance and routing claims cite; in `get_and_send_readings`
itself it is unreachable because line 258 raises first. -/
def cycle_after_setup (env : CycleEnv) (file : CSVFile) : CycleOutcome × CSVFile :=
  except_handlers (cycle_body env file)

/-- A dict has exactly the schema keys, in schema order. -/
def IsReadingDict (d : ReadingDict) : Prop :=
  d.map Prod.fst = PARAMETER_NAME_LIST

/-! Basic lemmas about the bit-string helpers. -/

theorem format016b_eq_toBitsW (n : ℕ) : format016b n = toBitsW 16 n := rfl

theorem toBitsW_length (w n : ℕ) : (toBitsW w n).length = w := by
  induction w with
  | zero => rfl
  | succ w ih => simp [toBitsW, ih]

theorem ofBitsAux_eq (l : List ℕ) : ∀ acc : ℕ,
    ofBitsAux acc l = acc * 2 ^ l.length + ofBits l := by
  induction l with
  | nil => intro acc; simp [ofBitsAux, ofBits]
  | cons b rest ih =>
    intro acc
    show ofBitsAux (2 * acc + b) rest = acc * 2 ^ (rest.length + 1) + ofBits (b :: rest)
    rw [ih (2 * acc + b)]
    show _ = acc * 2 ^ (rest.length + 1) + ofBitsAux (2 * 0 + b) rest
    rw [ih (2 * 0 + b)]
    ring

theorem ofBits_cons (b : ℕ) (l : List ℕ) :
    ofBits (b :: l) = b * 2 ^ l.length + ofBits l := by
  show ofBitsAux (2 * 0 + b) l = b * 2 ^ l.length + ofBits l
  rw [ofBitsAux_eq]
  ring_nf

theorem ofBits_append (l1 l2 : List ℕ) :
    ofBits (l1 ++ l2) = ofBits l1 * 2 ^ l2.length + ofBits l2 := by
  induction l1 with
  | nil => simp [ofBits, ofBitsAux]
  | cons b rest ih =>
    rw [List.cons_append, ofBits_cons, ih, ofBits_cons, List.length_append]
    ring

theorem ofBits_toBitsW (w n : ℕ) : ofBits (toBitsW w n) = n % 2 ^ w := by
  induction w with
  | zero => simp [toBitsW, ofBits, ofBitsAux, Nat.mod_one]
  | succ w ih =>
    rw [toBitsW, ofBits_cons, toBitsW_length, ih]
    have hdvd : (2 : ℕ) ^ w ∣ 2 ^ (w + 1) := pow_dvd_pow 2 (Nat.le_succ w)
    have h1 : n % 2 ^ (w + 1) / 2 ^ w = n / 2 ^ w % 2 := by
      rw [pow_succ]
      exact Nat.mod_mul_right_div_self n (2 ^ w) 2
    have h2 : n % 2 ^ (w + 1) % 2 ^ w = n % 2 ^ w := Nat.mod_mod_of_dvd n hdvd
    calc n / 2 ^ w % 2 * 2 ^ w + n % 2 ^ w
        = n % 2 ^ (w + 1) / 2 ^ w * 2 ^ w + n % 2 ^ (w + 1) % 2 ^ w := by rw [h1, h2]
      _ = n % 2 ^ (w + 1) := Nat.div_add_mod' _ _

theorem toBitsW_append (b n : ℕ) : ∀ a : ℕ,
    toBitsW (a + b) n = toBitsW a (n / 2 ^ b) ++ toBitsW b n := by
  intro a
  induction a with
  | zero => simp [toBitsW]
  | succ a ih =>
    have harg : a + 1 + b = (a + b) + 1 := by omega
    rw [harg, toBitsW, ih]
    have hdiv : n / 2 ^ b / 2 ^ a = n / 2 ^ (a + b) := by
      rw [Nat.div_div_eq_div_mul, ← pow_add]
      ring_nf
    rw [toBitsW, hdiv]
    rfl

theorem mantissaLoopAux_eq (l : List ℕ) : ∀ (acc : ℚ) (p : ℤ),
    mantissaLoopAux acc l p = acc + (ofBits l : ℚ) * (2 : ℚ) ^ (p + 1 - l.length) := by
  induction l with
  | nil => intro acc p; simp [mantissaLoopAux, ofBits, ofBitsAux]
  | cons b rest ih =>
    intro acc p
    show mantissaLoopAux (acc + (b : ℚ) * (2 : ℚ) ^ p) rest (p - 1)
        = acc + (ofBits (b :: rest) : ℚ) * (2 : ℚ) ^ (p + 1 - (rest.length + 1))
    rw [ih]
    have hb : (ofBits (b :: rest) : ℚ) = (b : ℚ) * 2 ^ rest.length + (ofBits rest : ℚ) := by
      rw [ofBits_cons]
      push_cast
      ring
    rw [hb]
    have h2 : (2 : ℚ) ≠ 0 := by norm_num
    have hsplit : (2 : ℚ) ^ p = (2 : ℚ) ^ (rest.length : ℤ) * (2 : ℚ) ^ (p - rest.length) := by
      rw [← zpow_add₀ h2]
      ring_nf
    have hcast : ((2 : ℚ) ^ (rest.length : ℤ)) = (2 : ℚ) ^ (rest.length : ℕ) := by
      exact zpow_natCast 2 rest.length
    have harg : p + 1 - ((rest.length : ℤ) + 1) = p - rest.length := by ring
    rw [harg, hsplit, hcast]
    ring_nf

/-- The mantissa routine on a bit string of length `L` returns
`1 + (positional value) / 2 ^ L`. -/
theorem convert_mantissa_eq (l : List ℕ) :
    convert_mantissa l = (ofBits l : ℚ) * (2 : ℚ) ^ (-(l.length : ℤ)) + 1 := by
  unfold convert_mantissa
  rw [mantissaLoopAux_eq]
  ring_nf

/-- Core refinement fact: on genuine 16-bit register words the string-based
decode of main.py equals the direct arithmetic IEEE-754 reading of the 32-bit
word whose HIGH half is the SECOND list element and whose LOW half is the
FIRST list element. -/
theorem convert_to_decimal_eq_decodeWord (r0 r1 : ℕ) (h0 : r0 < 2 ^ 16) (h1 : r1 < 2 ^ 16) :
    convert_to_decimal [r0, r1] = decodeWord (r1 * 2 ^ 16 + r0) := by
  have h16a : toBitsW 16 r1 = toBitsW 1 (r1 / 2 ^ 15) ++ toBitsW 15 r1 := by
    have h := toBitsW_append 15 r1 1
    norm_num at h
    exact h
  have h15 : toBitsW 15 r1 = toBitsW 8 (r1 / 2 ^ 7) ++ toBitsW 7 r1 := by
    have h := toBitsW_append 7 r1 8
    norm_num at h
    exact h
  have h16b : toBitsW 16 r1 = toBitsW 9 (r1 / 2 ^ 7) ++ toBitsW 7 r1 := by
    have h := toBitsW_append 7 r1 9
    norm_num at h
    exact h
  have hbs : binary_string_of [r0, r1] = toBitsW 16 r1 ++ toBitsW 16 r0 := rfl
  have hdrop1 : (binary_string_of [r0, r1]).drop 1 = toBitsW 15 r1 ++ toBitsW 16 r0 := by
    rw [hbs, h16a, List.append_assoc]
    exact List.drop_left' (toBitsW_length 1 _)
  have htake8 : (toBitsW 15 r1 ++ toBitsW 16 r0).take 8 = toBitsW 8 (r1 / 2 ^ 7) := by
    rw [h15, List.append_assoc]
    exact List.take_left' (toBitsW_length 8 _)
  have hdrop9 : (binary_string_of [r0, r1]).drop 9 = toBitsW 7 r1 ++ toBitsW 16 r0 := by
    rw [hbs, h16b, List.append_assoc]
    exact List.drop_left' (toBitsW_length 9 _)
  have hsign_pipe : (binary_string_of [r0, r1]).getD 0 0 = r1 / 2 ^ 15 % 2 := rfl
  have hexp_val : ofBits (((binary_string_of [r0, r1]).drop 1).take 8) = r1 / 2 ^ 7 % 2 ^ 8 := by
    rw [hdrop1, htake8, ofBits_toBitsW]
  have hman_val : ofBits ((binary_string_of [r0, r1]).drop 9) = r1 % 2 ^ 7 * 2 ^ 16 + r0 := by
    rw [hdrop9, ofBits_append, ofBits_toBitsW, ofBits_toBitsW, toBitsW_length,
        Nat.mod_eq_of_lt h0]
  have hman_len : ((binary_string_of [r0, r1]).drop 9).length = 23 := by
    rw [hdrop9, List.length_append, toBitsW_length, toBitsW_length]
  have hw_sign : (r1 * 2 ^ 16 + r0) / 2 ^ 31 % 2 = r1 / 2 ^ 15 % 2 := by omega
  have hw_exp : (r1 * 2 ^ 16 + r0) / 2 ^ 23 % 2 ^ 8 = r1 / 2 ^ 7 % 2 ^ 8 := by omega
  have hw_man : (r1 * 2 ^ 16 + r0) % 2 ^ 23 = r1 % 2 ^ 7 * 2 ^ 16 + r0 := by omega
  unfold convert_to_decimal decodeWord
  rw [hsign_pipe, convert_mantissa_eq, hman_len, hman_val, hexp_val, hw_sign, hw_exp, hw_man]
  norm_num

/-! Concrete decoded register values used by the cycle-level theorems. -/

theorem conv_one : convert_to_decimal [0, 0x3F80] = 1 := by
  rw [convert_to_decimal_eq_decodeWord 0 0x3F80 (by norm_num) (by norm_num)]
  norm_num [decodeWord]

theorem conv_two : convert_to_decimal [0, 0x4000] = 2 := by
  rw [convert_to_decimal_eq_decodeWord 0 0x4000 (by norm_num) (by norm_num)]
  norm_num [decodeWord]

theorem conv_three : convert_to_decimal [0, 0x4040] = 3 := by
  rw [convert_to_decimal_eq_decodeWord 0 0x4040 (by norm_num) (by norm_num)]
  norm_num [decodeWord]

theorem conv_hundred : convert_to_decimal [0, 0x42C8] = 100 := by
  rw [convert_to_decimal_eq_decodeWord 0 0x42C8 (by norm_num) (by norm_num)]
  norm_num [decodeWord]

theorem conv_neg_one : convert_to_decimal [0, 0xBF80] = -1 := by
  rw [convert_to_decimal_eq_decodeWord 0 0xBF80 (by norm_num) (by norm_num)]
  norm_num [decodeWord]

theorem conv_neg_two : convert_to_decimal [0, 0xC000] = -2 := by
  rw [convert_to_decimal_eq_decodeWord 0 0xC000 (by norm_num) (by norm_num)]
  norm_num [decodeWord]

theorem conv_half : convert_to_decimal [0, 0x3F00] = 1 / 2 := by
  rw [convert_to_decimal_eq_decodeWord 0 0x3F00 (by norm_num) (by norm_num)]
  norm_num [decodeWord]

theorem conv_pi : convert_to_decimal [0x0FDB, 0x4049] = 13176795 / 4194304 := by
  rw [convert_to_decimal_eq_decodeWord 0x0FDB 0x4049 (by norm_num) (by norm_num)]
  norm_num [decodeWord]

/-- C3 counterexample: at the register pair of the documented π scenario
(low word first, as the halves arrive), the pattern the source builds is not
the claimed first-arriving-bits-first concatenation, and running the decode
pipeline on the claimed pattern yields a different value. -/
theorem c3_counterexample_pattern_order :
    binary_string_of [0x0FDB, 0x4049] ≠ spec_order_pattern [0x0FDB, 0x4049]
    ∧ convert_to_decimal [0x0FDB, 0x4049] ≠ spec_order_decode [0x0FDB, 0x4049] := by
  constructor
  · decide
  · rw [conv_pi]
    norm_num [spec_order_decode, spec_order_pattern, format016b, convert_mantissa,
      mantissaLoopAux, ofBits, ofBitsAux]

/-- C3 (amended): the decoder concatenates the bits of the SECOND-arriving
(high-order) register followed by the bits of the FIRST-arriving (low-order)
register, so it decodes exactly the 32-bit word `hi * 2 ^ 16 + lo` where
`hi` is the second and `lo` the first element of the register response. -/
theorem c3_pattern_second_then_first (r0 r1 : ℕ) (h0 : r0 < 2 ^ 16) (h1 : r1 < 2 ^ 16) :
    binary_string_of [r0, r1] = format016b r1 ++ format016b r0
    ∧ convert_to_decimal [r0, r1] = decodeWord (r1 * 2 ^ 16 + r0) :=
  ⟨rfl, convert_to_decimal_eq_decodeWord r0 r1 h0 h1⟩

/-- Witness for the amended C3 at the π register pair. -/
theorem c3_pattern_second_then_first_witness :
    0x0FDB < 2 ^ 16 ∧ 0x4049 < 2 ^ 16
    ∧ convert_to_decimal [0x0FDB, 0x4049] = decodeWord (0x4049 * 2 ^ 16 + 0x0FDB) :=
  ⟨by norm_num, by norm_num,
    (c3_pattern_second_then_first 0x0FDB 0x4049 (by norm_num) (by norm_num)).2⟩

/-- C4: the register pair holding π (high word 0x4049, low word 0x0FDB,
supplied low-first as documented) decodes to within 1e-4 of 3.14159. -/
theorem c4_pi_within_tolerance :
    |convert_to_decimal [0x0FDB, 0x4049] - 3.14159| < 1 / 10000 := by
  rw [conv_pi, abs_sub_lt_iff]
  constructor <;> norm_num

/-- C10: the decode pipeline applies the implicit-leading-1 formula
unconditionally; the all-zero register pair decodes to `2 ^ (-127)` rather
than 0, and no 16-bit register pair decodes to 0. -/
theorem c10_no_ieee_special_cases :
    convert_to_decimal [0, 0] = (2 : ℚ) ^ (-127 : ℤ)
    ∧ ∀ r0 r1 : ℕ, r0 < 2 ^ 16 → r1 < 2 ^ 16 → convert_to_decimal [r0, r1] ≠ 0 := by
  constructor
  · rw [convert_to_decimal_eq_decodeWord 0 0 (by norm_num) (by norm_num)]
    norm_num [decodeWord]
  · intro r0 r1 h0 h1
    rw [convert_to_decimal_eq_decodeWord r0 r1 h0 h1]
    unfold decodeWord
    apply mul_ne_zero (mul_ne_zero ?_ ?_) ?_
    · exact pow_ne_zero _ (by norm_num)
    · have hnn : (0 : ℚ) ≤ ((r1 * 2 ^ 16 + r0) % 2 ^ 23 : ℕ) * (2 : ℚ) ^ (-23 : ℤ) := by
        positivity
      intro hzero
      nlinarith [hnn]
    · exact zpow_ne_zero _ (by norm_num)

/-- Witness for C10 at a nonzero 16-bit pair. -/
theorem c10_witness :
    7 < 2 ^ 16 ∧ 9 < 2 ^ 16 ∧ convert_to_decimal [7, 9] ≠ 0 :=
  ⟨by norm_num, by norm_num, c10_no_ieee_special_cases.2 7 9 (by norm_num) (by norm_num)⟩

/-! Phase imbalance range (C8). -/

/-- C8 counterexample: the triple `(-3, 1, 1)` has non-zero mean (decoded
register values can be negative, e.g. `convert_to_decimal [0, 0xC040] = -3`),
yet the computed imbalance is `-3`, outside `[1, 3]`. -/
theorem c8_counterexample_negative_current :
    convert_to_decimal [0, 0xC040] = -3
    ∧ ((-3 : ℚ) + 1 + 1) / 3 ≠ 0
    ∧ ¬(1 ≤ phase_imbalance_calc (-3) 1 1 ∧ phase_imbalance_calc (-3) 1 1 ≤ 3) := by
  refine ⟨?_, by norm_num, ?_⟩
  · rw [convert_to_decimal_eq_decodeWord 0 0xC040 (by norm_num) (by norm_num)]
    norm_num [decodeWord]
  · have hmax : max (-3 : ℚ) (max 1 1) = 1 := by
      rw [max_self]
      exact max_eq_right (by norm_num)
    rw [phase_imbalance_calc, hmax]
    norm_num

/-- C8 (amended): for NONNEGATIVE current triples with non-zero mean, the
computed imbalance lies in the closed interval `[1, 3]`. -/
theorem c8_imbalance_in_unit_interval (r y b : ℚ) (hr : 0 ≤ r) (hy : 0 ≤ y) (hb : 0 ≤ b)
    (hmean : (r + y + b) / 3 ≠ 0) :
    1 ≤ phase_imbalance_calc r y b ∧ phase_imbalance_calc r y b ≤ 3 := by
  have hsumne : r + y + b ≠ 0 := by
    intro h
    exact hmean (by rw [h]; norm_num)
  have hsum : 0 < r + y + b := lt_of_le_of_ne (by linarith) (Ne.symm hsumne)
  have havg : 0 < (r + y + b) / 3 := by positivity
  have h1 : r ≤ max r (max y b) := le_max_left _ _
  have h2 : y ≤ max r (max y b) := le_trans (le_max_left y b) (le_max_right _ _)
  have h3 : b ≤ max r (max y b) := le_trans (le_max_right y b) (le_max_right _ _)
  have hmax_le : max r (max y b) ≤ r + y + b := by
    apply max_le (by linarith)
    exact max_le (by linarith) (by linarith)
  have hle_max : (r + y + b) / 3 ≤ max r (max y b) := by linarith
  constructor
  · rw [phase_imbalance_calc]
    exact (one_le_div havg).mpr hle_max
  · rw [phase_imbalance_calc, div_le_iff₀ havg]
    linarith

/-- Witness for the amended C8 at the all-ones triple. -/
theorem c8_imbalance_witness :
    (0 : ℚ) ≤ 1 ∧ ((1 : ℚ) + 1 + 1) / 3 ≠ 0
    ∧ 1 ≤ phase_imbalance_calc 1 1 1 ∧ phase_imbalance_calc 1 1 1 ≤ 3 :=
  ⟨by norm_num, by norm_num,
    c8_imbalance_in_unit_interval 1 1 1 (by norm_num) (by norm_num) (by norm_num) (by norm_num)⟩

/-! Backlog store algebra (C9). -/

theorem zip_map_fst_snd {α β : Type} (d : List (α × β)) :
    (d.map Prod.fst).zip (d.map Prod.snd) = d := by
  induction d with
  | nil => rfl
  | cons hd tl ih => simp [ih]

/-- Looking up each of the keys of an association list with distinct keys
recovers the values in order. -/
theorem map_lookup_self (d : ReadingDict) (hnd : (d.map Prod.fst).Nodup) :
    (d.map Prod.fst).map (fun k => (d.lookup k).getD (Entry.str ""))
      = d.map Prod.snd := by
  induction d with
  | nil => rfl
  | cons hd tl ih =>
    simp only [List.map_cons, List.nodup_cons] at hnd ⊢
    obtain ⟨hni, hnd'⟩ := hnd
    have hhead : ((hd :: tl).lookup hd.1).getD (Entry.str "") = hd.2 := by
      simp [List.lookup]
    have hcongr : (tl.map Prod.fst).map (fun k => ((hd :: tl).lookup k).getD (Entry.str ""))
        = (tl.map Prod.fst).map (fun k => (tl.lookup k).getD (Entry.str "")) := by
      apply List.map_congr_left
      intro k hk
      have hne : ¬(k == hd.1) = true := by
        simp only [beq_iff_eq]
        intro h
        exact hni (h ▸ hk)
      simp [List.lookup, hne]
    rw [hhead, hcongr, ih hnd']

theorem parameter_names_nodup : PARAMETER_NAME_LIST.Nodup := by decide

/-- Appending a dict whose keys are exactly the schema stores its values in
schema order, and reading it back through the header recovers the dict. -/
theorem read_all_writerow (d : ReadingDict) (f : CSVFile)
    (hh : f.header = PARAMETER_NAME_LIST) (hd : IsReadingDict d) :
    read_all (writerow d f) = read_all f ++ [d] := by
  unfold read_all writerow
  simp only [List.map_append, hh]
  congr 1
  have hrow : PARAMETER_NAME_LIST.map (fun k => (d.lookup k).getD (Entry.str ""))
      = d.map Prod.snd := by
    rw [← hd]
    apply map_lookup_self
    rw [hd]
    exact parameter_names_nodup
  simp only [List.map_cons, List.map_nil, hrow]
  rw [← hd, zip_map_fst_snd]

/-- C9: the backlog algebra.  Append-then-clear reads back empty; two appends
to the initialised store read back as the two dicts in append order;
`clear_csv` is idempotent and always leaves the schema header in place. -/
theorem c9_backlog_algebra :
    (∀ (f : CSVFile) (r : ReadingDict), read_all (clear_csv (writerow r f)) = [])
    ∧ (∀ r1 r2 : ReadingDict, IsReadingDict r1 → IsReadingDict r2 →
        read_all (writerow r2 (writerow r1 init_file)) = [r1, r2])
    ∧ (∀ f : CSVFile, clear_csv (clear_csv f) = clear_csv f)
    ∧ (∀ f : CSVFile, (clear_csv f).header = PARAMETER_NAME_LIST) := by
  refine ⟨fun f r => rfl, ?_, fun f => rfl, fun f => rfl⟩
  intro r1 r2 h1 h2
  have hh1 : init_file.header = PARAMETER_NAME_LIST := rfl
  have hh2 : (writerow r1 init_file).header = PARAMETER_NAME_LIST := rfl
  rw [read_all_writerow r2 _ hh2 h2, read_all_writerow r1 _ hh1 h1]
  rfl

/-- Witness for C9 on a concrete schema-shaped dict. -/
theorem c9_backlog_algebra_witness :
    IsReadingDict (PARAMETER_NAME_LIST.map fun k => (k, Entry.str k))
    ∧ read_all (writerow (PARAMETER_NAME_LIST.map fun k => (k, Entry.str k))
        (writerow (PARAMETER_NAME_LIST.map fun k => (k, Entry.str k)) init_file))
      = [PARAMETER_NAME_LIST.map fun k => (k, Entry.str k),
         PARAMETER_NAME_LIST.map fun k => (k, Entry.str k)] := by
  have hk : IsReadingDict (PARAMETER_NAME_LIST.map fun k => (k, Entry.str k)) := rfl
  exact ⟨hk, c9_backlog_algebra.2.1 _ _ hk hk⟩

/-! Evaluation lemmas for the cycle model. -/

theorem getNum_ok (t : String) (d : List ℚ) (i : ℕ) (q : ℚ) (h : d[i]? = some q) :
    getNum (Entry.str t :: d.map Entry.num) (i + 1) = .ok q := by
  unfold getNum
  rw [List.getElem?_cons_succ, List.getElem?_map, h]
  rfl

theorem phase_block_ok (t : String) (d : List ℚ) (a b c : ℚ)
    (h4 : d[4]? = some a) (h5 : d[5]? = some b) (h6 : d[6]? = some c) :
    phase_block (Entry.str t :: d.map Entry.num)
      = if (a + b + c) / 3 = 0 then .error .zeroDivisionError
        else .ok (phase_imbalance_calc a b c) := by
  have g5 : getNum (Entry.str t :: d.map Entry.num) 5 = .ok a := by
    have h := getNum_ok t d 4 a h4
    norm_num at h
    exact h
  have g6 : getNum (Entry.str t :: d.map Entry.num) 6 = .ok b := by
    have h := getNum_ok t d 5 b h5
    norm_num at h
    exact h
  have g7 : getNum (Entry.str t :: d.map Entry.num) 7 = .ok c := by
    have h := getNum_ok t d 6 c h6
    norm_num at h
    exact h
  unfold phase_block
  rw [g5, g6, g7]

/-- When the read loop succeeds and the phase block returns a value, the
cycle routes the assembled `final_dict` offline (append) or online (append
then replay) according to the probe result. -/
theorem cycle_body_routes (env : CycleEnv) (file : CSVFile) (d : List ℚ) (x : ℚ)
    (hread : read_loop env.readReg (List.range REGISTER_LIST.length) = .ok d)
    (hphase : phase_block (Entry.str env.time_now :: d.map Entry.num) = .ok x) :
    cycle_body env file =
      if env.connected = false then
        (.ok (), writerow (PARAMETER_NAME_LIST.zip
          (Entry.str env.time_now :: d.map Entry.num
            ++ [.num x, .num METER_ID, .str env.ip_address])) file)
      else
        online_branch (PARAMETER_NAME_LIST.zip
          (Entry.str env.time_now :: d.map Entry.num
            ++ [.num x, .num METER_ID, .str env.ip_address])) file := by
  unfold cycle_body
  simp only [hread, hphase]

/-- When the read loop succeeds but the phase block raises, the cycle aborts
with that exception and the file is untouched. -/
theorem cycle_body_phase_error (env : CycleEnv) (file : CSVFile) (d : List ℚ) (e : PyExc)
    (hread : read_loop env.readReg (List.range REGISTER_LIST.length) = .ok d)
    (hphase : phase_block (Entry.str env.time_now :: d.map Entry.num) = .error e) :
    cycle_body env file = (.error e, file) := by
  unfold cycle_body
  simp only [hread, hphase]

/-- Shared helper: a zero mean of the three values the code actually divides
by (`values_list[5..7]`, i.e. decoded indices 4, 5, 6) makes the cycle end in
an UNCAUGHT `ZeroDivisionError`, leaving the file unchanged. -/
theorem cycle_zero_mean_uncaught (env : CycleEnv) (file : CSVFile) (d : List ℚ) (a b c : ℚ)
    (hread : read_loop env.readReg (List.range REGISTER_LIST.length) = .ok d)
    (h4 : d[4]? = some a) (h5 : d[5]? = some b) (h6 : d[6]? = some c)
    (hsum : a + b + c = 0) :
    cycle_after_setup env file = (.uncaught .zeroDivisionError, file) := by
  have hphase : phase_block (Entry.str env.time_now :: d.map Entry.num)
      = .error .zeroDivisionError := by
    rw [phase_block_ok env.time_now d a b c h4 h5 h6, hsum]
    norm_num
  unfold cycle_after_setup
  rw [cycle_body_phase_error env file d .zeroDivisionError hread hphase]
  rfl

/-! C7: a failed register read aborts the cycle with no backlog side effect. -/

/-- C7: when any register read raises (so the read loop returns that
exception), no reading is assembled (`cycle_body` returns the bare error and
the untouched file) and the file state after the handled cycle equals the
initial file state. -/
theorem c7_read_failure_no_side_effect (env : CycleEnv) (file : CSVFile) (e : PyExc)
    (h : read_loop env.readReg (List.range REGISTER_LIST.length) = .error e) :
    cycle_body env file = (.error e, file)
    ∧ (cycle_after_setup env file).2 = file := by
  have hbody : cycle_body env file = (.error e, file) := by
    unfold cycle_body
    simp only [h]
  refine ⟨hbody, ?_⟩
  unfold cycle_after_setup
  rw [hbody]
  cases e <;> rfl

/-- Witness for C7: the read of register index 10 of 32 fails, the backlog
file is unchanged. -/
theorem c7_read_failure_witness :
    read_loop
        (fun i => if i = 10 then Except.error PyExc.illegalRequestError
          else Except.ok [0, 0x3F80])
        (List.range REGISTER_LIST.length)
      = .error .illegalRequestError
    ∧ (cycle_after_setup
        ⟨"2024-01-01 00:00:00", .ok (),
          fun i => if i = 10 then Except.error PyExc.illegalRequestError
            else Except.ok [0, 0x3F80],
          "127.0.0.1", true⟩ init_file).2 = init_file := by
  have h : read_loop
      (fun i => if i = 10 then Except.error PyExc.illegalRequestError
        else Except.ok [0, 0x3F80])
      (List.range REGISTER_LIST.length)
    = .error .illegalRequestError := rfl
  exact ⟨h, (c7_read_failure_no_side_effect _ init_file .illegalRequestError h).2⟩

/-! C5: the exception discipline of `get_and_send_readings`. -/

/-- C5 (code bug): whenever the serial device opens successfully, line 258
(`instrument.seial.timeout = 1`, a typo for `serial`) raises
`AttributeError` inside the `try`, no handler matches it, and
`get_and_send_readings` propagates it uncaught to its caller — before a
single register is read. -/
theorem c5_setup_attribute_error_uncaught (env : CycleEnv) (file : CSVFile)
    (h : env.serialOpen = .ok ()) :
    get_and_send_readings env file = (.uncaught (.attributeError "seial"), file) := by
  unfold get_and_send_readings try_body
  rw [h]
  rfl

/-- Witness for C5 at a fully healthy environment. -/
theorem c5_setup_attribute_error_witness :
    get_and_send_readings
        ⟨"2024-01-01 00:00:00", .ok (), fun _ => .ok [0, 0x3F80], "127.0.0.1", false⟩
        init_file
      = (.uncaught (.attributeError "seial"), init_file) :=
  c5_setup_attribute_error_uncaught _ init_file rfl

/-! C6: zero mean in the imbalance computation. -/

/-- C6 (amended): when the mean of the three values the code actually
divides by (`values_list[5..7]`, which are the decoded values at indices 4,
5 and 6: the y current, b current and r ACTIVE current) is zero, the cycle
raises `ZeroDivisionError` — no NaN is produced — but no handler catches it:
the exception propagates uncaught out of the cycle and the file is
unchanged. -/
theorem c6_zero_mean_uncaught_crash (env : CycleEnv) (file : CSVFile) (d : List ℚ)
    (a b c : ℚ)
    (hread : read_loop env.readReg (List.range REGISTER_LIST.length) = .ok d)
    (h4 : d[4]? = some a) (h5 : d[5]? = some b) (h6 : d[6]? = some c)
    (hsum : a + b + c = 0) :
    cycle_after_setup env file = (.uncaught .zeroDivisionError, file) :=
  cycle_zero_mean_uncaught env file d a b c hread h4 h5 h6 hsum

/-- C6 counterexample: a cycle whose decoded r, y, b phase currents are
`-1, 1/2, 1/2` (mean zero; register index 6 also decodes to `-1`, so the
divisor the code computes is zero as well).  The claim says this failure is
handled at the cycle boundary; instead the cycle ends in an UNCAUGHT
`ZeroDivisionError`. -/
theorem c6_counterexample_unhandled :
    read_loop
        (fun i => Except.ok (if i = 3 then [0, 0xBF80] else if i = 4 then [0, 0x3F00]
          else if i = 5 then [0, 0x3F00] else if i = 6 then [0, 0xBF80]
          else [0, 0x3F80]))
        (List.range REGISTER_LIST.length)
      = .ok ((List.range REGISTER_LIST.length).map fun i =>
          convert_to_decimal (if i = 3 then [0, 0xBF80] else if i = 4 then [0, 0x3F00]
            else if i = 5 then [0, 0x3F00] else if i = 6 then [0, 0xBF80]
            else [0, 0x3F80]))
    ∧ convert_to_decimal [0, 0xBF80] = -1
    ∧ convert_to_decimal [0, 0x3F00] = 1 / 2
    ∧ ((-1 : ℚ) + 1 / 2 + 1 / 2) / 3 = 0
    ∧ cycle_after_setup
        ⟨"2024-01-01 00:00:00", .ok (),
          fun i => Except.ok (if i = 3 then [0, 0xBF80] else if i = 4 then [0, 0x3F00]
            else if i = 5 then [0, 0x3F00] else if i = 6 then [0, 0xBF80]
            else [0, 0x3F80]),
          "127.0.0.1", true⟩ init_file
      = (.uncaught .zeroDivisionError, init_file) := by
  refine ⟨rfl, conv_neg_one, conv_half, by norm_num, ?_⟩
  apply cycle_zero_mean_uncaught _ init_file
      ((List.range REGISTER_LIST.length).map fun i =>
        convert_to_decimal (if i = 3 then [0, 0xBF80] else if i = 4 then [0, 0x3F00]
          else if i = 5 then [0, 0x3F00] else if i = 6 then [0, 0xBF80]
          else [0, 0x3F80]))
      (1 / 2) (1 / 2) (-1)
  · rfl
  · have e4 : ((List.range REGISTER_LIST.length).map fun i =>
        convert_to_decimal (if i = 3 then [0, 0xBF80] else if i = 4 then [0, 0x3F00]
          else if i = 5 then [0, 0x3F00] else if i = 6 then [0, 0xBF80]
          else [0, 0x3F80]))[4]? = some (convert_to_decimal [0, 0x3F00]) := rfl
    rw [e4, conv_half]
  · have e5 : ((List.range REGISTER_LIST.length).map fun i =>
        convert_to_decimal (if i = 3 then [0, 0xBF80] else if i = 4 then [0, 0x3F00]
          else if i = 5 then [0, 0x3F00] else if i = 6 then [0, 0xBF80]
          else [0, 0x3F80]))[5]? = some (convert_to_decimal [0, 0x3F00]) := rfl
    rw [e5, conv_half]
  · have e6 : ((List.range REGISTER_LIST.length).map fun i =>
        convert_to_decimal (if i = 3 then [0, 0xBF80] else if i = 4 then [0, 0x3F00]
          else if i = 5 then [0, 0x3F00] else if i = 6 then [0, 0xBF80]
          else [0, 0x3F80]))[6]? = some (convert_to_decimal [0, 0xBF80]) := rfl
    rw [e6, conv_neg_one]
  · norm_num

/-- Witness for the amended C6: decoded currents `1, 1, -2` at indices 4, 5
and 6 sum to zero and the cycle ends uncaught. -/
theorem c6_zero_mean_witness :
    cycle_after_setup
        ⟨"2024-01-01 00:00:00", .ok (),
          fun i => Except.ok (if i = 6 then [0, 0xC000] else [0, 0x3F80]),
          "127.0.0.1", false⟩ init_file
      = (.uncaught .zeroDivisionError, init_file) := by
  apply c6_zero_mean_uncaught_crash _ init_file
      ((List.range REGISTER_LIST.length).map fun i =>
        convert_to_decimal (if i = 6 then [0, 0xC000] else [0, 0x3F80]))
      1 1 (-2)
  · rfl
  · have e4 : ((List.range REGISTER_LIST.length).map fun i =>
        convert_to_decimal (if i = 6 then [0, 0xC000] else [0, 0x3F80]))[4]?
      = some (convert_to_decimal [0, 0x3F80]) := rfl
    rw [e4, conv_one]
  · have e5 : ((List.range REGISTER_LIST.length).map fun i =>
        convert_to_decimal (if i = 6 then [0, 0xC000] else [0, 0x3F80]))[5]?
      = some (convert_to_decimal [0, 0x3F80]) := rfl
    rw [e5, conv_one]
  · have e6 : ((List.range REGISTER_LIST.length).map fun i =>
        convert_to_decimal (if i = 6 then [0, 0xC000] else [0, 0x3F80]))[6]?
      = some (convert_to_decimal [0, 0xC000]) := rfl
    rw [e6, conv_neg_two]
  · norm_num

/-! C1: the ONLINE branch of the delivery router. -/

/-- C1 (code bug): on a fully healthy ONLINE cycle (all 32 reads succeed,
probe reports connected), the replay loop crashes on its FIRST row with an
uncaught `KeyError "rpi_ip_address"` (the row dict is keyed by the schema,
which has `ip_address`), before any send is attempted; `clear_csv` is never
reached, so the file still holds exactly the one appended reading. -/
theorem c1_online_replay_keyerror_no_clear :
    (cycle_after_setup
        ⟨"2024-01-01 00:00:00", .ok (), fun _ => Except.ok [0, 0x3F80],
          "127.0.0.1", true⟩ init_file).1
      = .uncaught (.keyError "rpi_ip_address")
    ∧ (cycle_after_setup
        ⟨"2024-01-01 00:00:00", .ok (), fun _ => Except.ok [0, 0x3F80],
          "127.0.0.1", true⟩ init_file).2.header = PARAMETER_NAME_LIST
    ∧ (cycle_after_setup
        ⟨"2024-01-01 00:00:00", .ok (), fun _ => Except.ok [0, 0x3F80],
          "127.0.0.1", true⟩ init_file).2.rows.length = 1 := by
  have hread1 : read_loop (fun _ => Except.ok [0, 0x3F80]) (List.range REGISTER_LIST.length)
      = .ok ((List.range REGISTER_LIST.length).map fun _ =>
          convert_to_decimal [0, 0x3F80]) := rfl
  have h4 : ((List.range REGISTER_LIST.length).map fun _ =>
      convert_to_decimal [0, 0x3F80])[4]? = some (1 : ℚ) := by
    have e : ((List.range REGISTER_LIST.length).map fun _ =>
        convert_to_decimal [0, 0x3F80])[4]? = some (convert_to_decimal [0, 0x3F80]) := rfl
    rw [e, conv_one]
  have h5 : ((List.range REGISTER_LIST.length).map fun _ =>
      convert_to_decimal [0, 0x3F80])[5]? = some (1 : ℚ) := by
    have e : ((List.range REGISTER_LIST.length).map fun _ =>
        convert_to_decimal [0, 0x3F80])[5]? = some (convert_to_decimal [0, 0x3F80]) := rfl
    rw [e, conv_one]
  have h6 : ((List.range REGISTER_LIST.length).map fun _ =>
      convert_to_decimal [0, 0x3F80])[6]? = some (1 : ℚ) := by
    have e : ((List.range REGISTER_LIST.length).map fun _ =>
        convert_to_decimal [0, 0x3F80])[6]? = some (convert_to_decimal [0, 0x3F80]) := rfl
    rw [e, conv_one]
  have hphase1 : phase_block (Entry.str "2024-01-01 00:00:00"
      :: ((List.range REGISTER_LIST.length).map fun _ =>
          convert_to_decimal [0, 0x3F80]).map Entry.num)
      = .ok (phase_imbalance_calc 1 1 1) := by
    rw [phase_block_ok "2024-01-01 00:00:00" _ 1 1 1 h4 h5 h6]
    rw [if_neg (by norm_num)]
  have hfinal : cycle_after_setup
      ⟨"2024-01-01 00:00:00", .ok (), fun _ => Except.ok [0, 0x3F80],
        "127.0.0.1", true⟩ init_file
      = (.uncaught (.keyError "rpi_ip_address"),
          writerow (PARAMETER_NAME_LIST.zip
            (Entry.str "2024-01-01 00:00:00"
              :: ((List.range REGISTER_LIST.length).map fun _ =>
                  convert_to_decimal [0, 0x3F80]).map Entry.num
              ++ [.num (phase_imbalance_calc 1 1 1), .num METER_ID, .str "127.0.0.1"]))
            init_file) := by
    unfold cycle_after_setup
    rw [cycle_body_routes _ init_file
        ((List.range REGISTER_LIST.length).map fun _ => convert_to_decimal [0, 0x3F80])
        (phase_imbalance_calc 1 1 1) hread1 hphase1]
    rfl
  refine ⟨?_, ?_, ?_⟩ <;> rw [hfinal] <;> rfl

/-! C2: which three values feed the phase-imbalance computation. -/

/-- C2 (code bug): an OFFLINE cycle whose decoded registers give
`r_curr = 1`, `y_curr = 2`, `b_curr = 3` and `r_active_curr = 100` stores a
reading whose `phase_imbalance` field is `20/7 = max(2,3,100)/mean(2,3,100)`
— computed from `values_list[5..7]`, i.e. the y current, the b current and
the r ACTIVE current — whereas `max/mean` of the r, y, b current fields of
that same reading is `3/2 ≠ 20/7`.  The variable names `r_current`,
`y_current`, `b_current` at lines 269-271 show the intended indices are off
by one (the timestamp occupies `values_list[0]`). -/
theorem c2_phase_imbalance_off_by_one :
    ((read_all (cycle_after_setup
        ⟨"2024-01-01 00:00:00", .ok (),
          fun i => Except.ok (if i = 4 then [0, 0x4000] else if i = 5 then [0, 0x4040]
            else if i = 6 then [0, 0x42C8] else [0, 0x3F80]),
          "10.0.0.7", false⟩ init_file).2).headD []).lookup "r_curr"
      = some (.num (convert_to_decimal [0, 0x3F80]))
    ∧ convert_to_decimal [0, 0x3F80] = 1
    ∧ ((read_all (cycle_after_setup
        ⟨"2024-01-01 00:00:00", .ok (),
          fun i => Except.ok (if i = 4 then [0, 0x4000] else if i = 5 then [0, 0x4040]
            else if i = 6 then [0, 0x42C8] else [0, 0x3F80]),
          "10.0.0.7", false⟩ init_file).2).headD []).lookup "y_curr"
      = some (.num (convert_to_decimal [0, 0x4000]))
    ∧ convert_to_decimal [0, 0x4000] = 2
    ∧ ((read_all (cycle_after_setup
        ⟨"2024-01-01 00:00:00", .ok (),
          fun i => Except.ok (if i = 4 then [0, 0x4000] else if i = 5 then [0, 0x4040]
            else if i = 6 then [0, 0x42C8] else [0, 0x3F80]),
          "10.0.0.7", false⟩ init_file).2).headD []).lookup "b_curr"
      = some (.num (convert_to_decimal [0, 0x4040]))
    ∧ convert_to_decimal [0, 0x4040] = 3
    ∧ ((read_all (cycle_after_setup
        ⟨"2024-01-01 00:00:00", .ok (),
          fun i => Except.ok (if i = 4 then [0, 0x4000] else if i = 5 then [0, 0x4040]
            else if i = 6 then [0, 0x42C8] else [0, 0x3F80]),
          "10.0.0.7", false⟩ init_file).2).headD []).lookup "phase_imbalance"
      = some (.num (20 / 7))
    ∧ (20 / 7 : ℚ) ≠ max 1 (max 2 3) / ((1 + 2 + 3) / 3) := by
  have hread2 : read_loop
      (fun i => Except.ok (if i = 4 then [0, 0x4000] else if i = 5 then [0, 0x4040]
        else if i = 6 then [0, 0x42C8] else [0, 0x3F80]))
      (List.range REGISTER_LIST.length)
      = .ok ((List.range REGISTER_LIST.length).map fun i =>
          convert_to_decimal (if i = 4 then [0, 0x4000] else if i = 5 then [0, 0x4040]
            else if i = 6 then [0, 0x42C8] else [0, 0x3F80])) := rfl
  have h4 : ((List.range REGISTER_LIST.length).map fun i =>
      convert_to_decimal (if i = 4 then [0, 0x4000] else if i = 5 then [0, 0x4040]
        else if i = 6 then [0, 0x42C8] else [0, 0x3F80]))[4]? = some (2 : ℚ) := by
    have e : ((List.range REGISTER_LIST.length).map fun i =>
        convert_to_decimal (if i = 4 then [0, 0x4000] else if i = 5 then [0, 0x4040]
          else if i = 6 then [0, 0x42C8] else [0, 0x3F80]))[4]?
        = some (convert_to_decimal [0, 0x4000]) := rfl
    rw [e, conv_two]
  have h5 : ((List.range REGISTER_LIST.length).map fun i =>
      convert_to_decimal (if i = 4 then [0, 0x4000] else if i = 5 then [0, 0x4040]
        else if i = 6 then [0, 0x42C8] else [0, 0x3F80]))[5]? = some (3 : ℚ) := by
    have e : ((List.range REGISTER_LIST.length).map fun i =>
        convert_to_decimal (if i = 4 then [0, 0x4000] else if i = 5 then [0, 0x4040]
          else if i = 6 then [0, 0x42C8] else [0, 0x3F80]))[5]?
        = some (convert_to_decimal [0, 0x4040]) := rfl
    rw [e, conv_three]
  have h6 : ((List.range REGISTER_LIST.length).map fun i =>
      convert_to_decimal (if i = 4 then [0, 0x4000] else if i = 5 then [0, 0x4040]
        else if i = 6 then [0, 0x42C8] else [0, 0x3F80]))[6]? = some (100 : ℚ) := by
    have e : ((List.range REGISTER_LIST.length).map fun i =>
        convert_to_decimal (if i = 4 then [0, 0x4000] else if i = 5 then [0, 0x4040]
          else if i = 6 then [0, 0x42C8] else [0, 0x3F80]))[6]?
        = some (convert_to_decimal [0, 0x42C8]) := rfl
    rw [e, conv_hundred]
  have hval : phase_imbalance_calc 2 3 100 = 20 / 7 := by
    rw [phase_imbalance_calc, max_eq_right (show (3 : ℚ) ≤ 100 by norm_num),
        max_eq_right (show (2 : ℚ) ≤ 100 by norm_num)]
    norm_num
  have hphase2 : phase_block (Entry.str "2024-01-01 00:00:00"
      :: ((List.range REGISTER_LIST.length).map fun i =>
          convert_to_decimal (if i = 4 then [0, 0x4000] else if i = 5 then [0, 0x4040]
            else if i = 6 then [0, 0x42C8] else [0, 0x3F80])).map Entry.num)
      = .ok (20 / 7) := by
    rw [phase_block_ok "2024-01-01 00:00:00" _ 2 3 100 h4 h5 h6,
        if_neg (by norm_num), hval]
  have hfinal : cycle_after_setup
      ⟨"2024-01-01 00:00:00", .ok (),
        fun i => Except.ok (if i = 4 then [0, 0x4000] else if i = 5 then [0, 0x4040]
          else if i = 6 then [0, 0x42C8] else [0, 0x3F80]),
        "10.0.0.7", false⟩ init_file
      = (.finished,
          writerow (PARAMETER_NAME_LIST.zip
            (Entry.str "2024-01-01 00:00:00"
              :: ((List.range REGISTER_LIST.length).map fun i =>
                  convert_to_decimal (if i = 4 then [0, 0x4000]
                    else if i = 5 then [0, 0x4040]
                    else if i = 6 then [0, 0x42C8] else [0, 0x3F80])).map Entry.num
              ++ [.num (20 / 7), .num METER_ID, .str "10.0.0.7"]))
            init_file) := by
    unfold cycle_after_setup
    rw [cycle_body_routes _ init_file
        ((List.range REGISTER_LIST.length).map fun i =>
          convert_to_decimal (if i = 4 then [0, 0x4000] else if i = 5 then [0, 0x4040]
            else if i = 6 then [0, 0x42C8] else [0, 0x3F80]))
        (20 / 7) hread2 hphase2]
    rfl
  refine ⟨?_, conv_one, ?_, conv_two, ?_, conv_three, ?_, by norm_num⟩ <;>
    rw [hfinal] <;> rfl

end EnergyMeter
